import Mathlib

/-!
Verification of the dropdown-menu controller in src/Dropdown.js.

The interaction state machine of the component is embedded shallowly:
pure computations become Lean functions, DOM elements become natural
number ids, the menu element becomes a record holding the item list
matched by qsa(menu, itemSelector), the containment test menu.contains
and the result of matches(menu, [role=menu]). A handler that in JS would
throw a TypeError is modelled by an explicit error outcome carrying the
message.
-/

namespace DropdownJs

/-- Characters of a string mapped to lower case, the case-insensitive
part of the regex test on the tag name at Dropdown.js line 174. -/
def lowerChars (s : String) : List Char :=
  s.data.map Char.toLower

/-- Boolean test that the first character list starts the second. -/
def isPrefixL : List Char → List Char → Bool
  | [], _ => true
  | _ :: _, [] => false
  | p :: ps, c :: cs => p == c && isPrefixL ps cs

/-- Boolean test that the pattern occurs somewhere in the list, the
unanchored part of the regex test at Dropdown.js line 174. -/
def containsChars (pat : List Char) : List Char → Bool
  | [] => isPrefixL pat []
  | c :: cs => isPrefixL pat (c :: cs) || containsChars pat cs

/-- Embeds line 174: the regex input or textarea, case-insensitive and
unanchored, tested against the tag name of the event target. -/
def isInputTag (tag : String) : Bool :=
  containsChars (lowerChars "input") (lowerChars tag) ||
    containsChars (lowerChars "textarea") (lowerChars tag)

/-- A registered menu element: the element ids matched by
qsa(menu, itemSelector) in document order, the containment test
menu.contains, and whether matches(menu, [role=menu]) holds. -/
structure Menu where
  items : List Nat
  containsElem : Nat → Bool
  hasRoleMenuAttr : Bool

/-- The controller state read by the keyboard and focus logic: the menu
and toggle handles (none while unregistered), the externally supplied
show prop (showFlag, since show is a Lean keyword), the transient
_focusInDropdown flag, and which elements expose a focus method. -/
structure DropdownModel where
  menu : Option Menu
  toggle : Option Nat
  showFlag : Bool
  focusInDropdown : Bool
  hasFocusMethod : Nat → Bool

/-- First index of x in l, as JS Array.prototype.indexOf but returning
an Option instead of the sentinel. -/
def idxOf? : List Nat → Nat → Option Nat
  | [], _ => none
  | a :: rest, x => if a = x then some 0 else (idxOf? rest x).map (· + 1)

/-- JS Array.prototype.indexOf: the first index of x in l, or -1 when x
is absent. -/
def jsIndexOf (l : List Nat) (x : Nat) : Int :=
  match idxOf? l x with
  | some i => (i : Int)
  | none => -1

/-- JS array indexing l[n]: the element at n, or none (undefined) when n
is out of range. -/
def itemAt : List Nat → Nat → Option Nat
  | [], _ => none
  | a :: _, 0 => some a
  | _ :: rest, n + 1 => itemAt rest n

/-- Embeds lines 145 and 146 of getNextFocusedChild: the index
items.indexOf(current) + offset clamped by
Math.max(0, Math.min(index, items.length)). The upper bound is the
length itself, one past the last valid index. -/
def clampedIndex (m : Menu) (current : Nat) (offset : Int) : Int :=
  max 0 (min (jsIndexOf m.items current + offset) (m.items.length : Int))

/-- Embeds getNextFocusedChild, lines 139 to 149: null when no menu is
registered, otherwise the item at the clamped index, none when the
clamped index equals the item count. -/
def getNextFocusedChild (st : DropdownModel) (current : Nat) (offset : Int) : Option Nat :=
  match st.menu with
  | none => none
  | some m => itemAt m.items (clampedIndex m current offset).toNat

/-- Embeds hasMenuRole, lines 151 to 153: false when no menu is
registered, otherwise the role test on the menu root. -/
def hasMenuRole (st : DropdownModel) : Bool :=
  match st.menu with
  | none => false
  | some m => m.hasRoleMenuAttr

/-- Embeds maybeFocusFirst, lines 161 to 167: the element receiving
focus, or none when the role gate fails, the item list is empty, or the
first item exposes no focus method. -/
def maybeFocusFirst (st : DropdownModel) : Option Nat :=
  if hasMenuRole st then
    match st.menu with
    | none => none
    | some m =>
      match itemAt m.items 0 with
      | none => none
      | some first => if st.hasFocusMethod first then some first else none
  else none

/-- Embeds focus, lines 155 to 159: how many focus calls the toggle
receives (one when it is registered and exposes a focus method). -/
def focusToggleCalls (st : DropdownModel) : Nat :=
  match st.toggle with
  | none => 0
  | some t => if st.hasFocusMethod t then 1 else 0

/-- Embeds the guard of updatePosition, line 214: the popper update runs
only when both element handles are present. -/
def updatePositionRuns (st : DropdownModel) : Bool :=
  st.toggle.isSome && st.menu.isSome

/-- Arguments of one onToggle invocation: the requested show value, the
id of the event passed through, and the source tag when a third argument
is passed. -/
structure ToggleCall where
  newShow : Bool
  eventId : Nat
  sourceTag : Option String
deriving DecidableEq

/-- Embeds toggleOpen, lines 226 to 229: onToggle receives the negated
show prop and the event; the code passes no third source argument. -/
def toggleOpen (st : DropdownModel) (eventId : Nat) : ToggleCall :=
  { newShow := !st.showFlag, eventId := eventId, sourceTag := none }

/-- Embeds handleClick, lines 168 to 170. -/
def handleClick (st : DropdownModel) (eventId : Nat) : ToggleCall :=
  toggleOpen st eventId

/-- A keydown event: its identity, key string, target element id and
target tag name. -/
structure KeyEvent where
  eventId : Nat
  key : String
  targetId : Nat
  targetTag : String
deriving DecidableEq

/-- Observable effects of one handleKeyDown run: whether
event.preventDefault ran, which element received a focus call, and
which onToggle invocation happened. -/
structure KeyEffects where
  didPreventDefault : Bool
  focused : Option Nat
  toggleCall : Option ToggleCall
deriving DecidableEq

/-- No effect: the handler returned without doing anything. -/
def noEffects : KeyEffects :=
  { didPreventDefault := false, focused := none, toggleCall := none }

/-- Result of one handler run: its effects, or the message of a thrown
TypeError. -/
inductive KeyOutcome where
  | ok : KeyEffects → KeyOutcome
  | jsError : String → KeyOutcome
deriving DecidableEq

/-- Whether a handler run completed without throwing. -/
def KeyOutcome.isOk : KeyOutcome → Bool
  | KeyOutcome.ok _ => true
  | KeyOutcome.jsError _ => false

/-- Embeds the guarded focus calls at lines 186 to 187 and 197 to 198:
next.focus() runs only when next is an element exposing focus. -/
def focusIfPossible (st : DropdownModel) (next : Option Nat) : Option Nat :=
  match next with
  | none => none
  | some el => if st.hasFocusMethod el then some el else none

/-- Embeds the switch of handleKeyDown, lines 184 to 206. The Escape and
Tab branch calls this.handleClose, a method that is never defined
anywhere on the class (its only other mention is line 93, which stores
the same undefined member in the context), so the call throws a
TypeError instead of requesting a close. -/
def keyDispatch (st : DropdownModel) (ev : KeyEvent) : KeyOutcome :=
  if ev.key = "ArrowUp" then
    KeyOutcome.ok
      { didPreventDefault := true
        focused := focusIfPossible st (getNextFocusedChild st ev.targetId (-1))
        toggleCall := none }
  else if ev.key = "ArrowDown" then
    if st.showFlag = false then
      KeyOutcome.ok
        { didPreventDefault := true
          focused := none
          toggleCall := some (toggleOpen st ev.eventId) }
    else
      KeyOutcome.ok
        { didPreventDefault := true
          focused := focusIfPossible st (getNextFocusedChild st ev.targetId 1)
          toggleCall := none }
  else if ev.key = "Escape" ∨ ev.key = "Tab" then
    KeyOutcome.jsError "this.handleClose is not a function"
  else
    KeyOutcome.ok noEffects

/-- Embeds the text-input guard, lines 174 to 182, with JS
short-circuit evaluation: ok true when the handler returns early, ok
false when the switch below is reached, error when key is neither a
space nor Escape and this.menu is null while menu.contains is read. -/
def inputGuardFires (st : DropdownModel) (ev : KeyEvent) : Except String Bool :=
  if isInputTag ev.targetTag then
    if ev.key = " " then Except.ok true
    else if ev.key = "Escape" then Except.ok false
    else
      match st.menu with
      | none => Except.error "Cannot read property contains of null"
      | some m => Except.ok (m.containsElem ev.targetId)
  else Except.ok false

/-- Embeds handleKeyDown, lines 172 to 207: the guard, then the key
switch. -/
def handleKeyDown (st : DropdownModel) (ev : KeyEvent) : KeyOutcome :=
  match inputGuardFires st ev with
  | Except.error e => KeyOutcome.jsError e
  | Except.ok true => KeyOutcome.ok noEffects
  | Except.ok false => keyDispatch st ev

/-- Embeds the placement derivation of getDerivedStateFromProps, lines
66 to 70: a chain of reassignments starting from the bottom default. -/
def getPlacement (drop : String) (alignRight : Bool) : String :=
  let p0 := if alignRight then "bottom-end" else "bottom-start"
  let p1 := if drop = "up" then (if alignRight then "top-end" else "top-start") else p0
  let p2 := if drop = "right" then "right-start" else p1
  let p3 := if drop = "left" then "left-start" else p2
  p3

/-- Slice of the state returned by getDerivedStateFromProps, lines 72 to
80: the placement, lastShow copied from the previous context show, and
the new show stored into the context. -/
structure DerivedState where
  placement : String
  lastShow : Bool
  ctxShow : Bool
deriving DecidableEq

/-- Embeds getDerivedStateFromProps, lines 66 to 81. -/
def getDerivedStateFromProps (drop : String) (alignRight showProp : Bool)
    (prevCtxShow : Bool) : DerivedState :=
  { placement := getPlacement drop alignRight
    lastShow := prevCtxShow
    ctxShow := showProp }

/-- Placement table exactly as the spec words it: up maps to top-start
or top-end by alignEnd, right always to right-start, left always to
left-start, and down or any unrecognized direction to bottom-start or
bottom-end by alignEnd. Stated for comparison with getPlacement. -/
def specPlacementTable (drop : String) (alignEnd : Bool) : String :=
  if drop = "up" then (if alignEnd then "top-end" else "top-start")
  else if drop = "right" then "right-start"
  else if drop = "left" then "left-start"
  else if alignEnd then "bottom-end" else "bottom-start"

/-- Embeds the render-time focus snapshot, lines 236 to 238: when
lastShow holds and the show prop is false, the code reads
this.menu.contains(document.activeElement) with no null check on
this.menu. -/
def renderFocusSnapshot (st : DropdownModel) (lastShow : Bool) (active : Nat) :
    Except String DropdownModel :=
  if lastShow && !st.showFlag then
    match st.menu with
    | none => Except.error "Cannot read property contains of null"
    | some m => Except.ok { st with focusInDropdown := m.containsElem active }
  else Except.ok st

/-- Observable effects of one componentDidUpdate run. -/
structure UpdateEffects where
  positionUpdated : Bool
  toggleFocusCalls : Nat
  firstItemFocused : Option Nat
deriving DecidableEq

/-- Embeds componentDidUpdate, lines 117 to 133: the open transition
repositions and maybe focuses the first item; the close transition,
when the focus flag is set, clears it and focuses the toggle. -/
def componentDidUpdate (st : DropdownModel) (prevShow : Bool) :
    DropdownModel × UpdateEffects :=
  if st.showFlag && !prevShow then
    (st, { positionUpdated := updatePositionRuns st
           toggleFocusCalls := 0
           firstItemFocused := maybeFocusFirst st })
  else if !st.showFlag && prevShow then
    if st.focusInDropdown then
      ({ st with focusInDropdown := false },
       { positionUpdated := false
         toggleFocusCalls := focusToggleCalls st
         firstItemFocused := none })
    else
      (st, { positionUpdated := false, toggleFocusCalls := 0, firstItemFocused := none })
  else
    (st, { positionUpdated := false, toggleFocusCalls := 0, firstItemFocused := none })

/-- One open to closed update cycle: the closing render snapshot (the
previous context show was true, the incoming show prop is false)
followed by componentDidUpdate with prevProps.show true. -/
def closeTransition (st : DropdownModel) (active : Nat) :
    Except String (DropdownModel × UpdateEffects) :=
  (renderFocusSnapshot st true active).map (fun s => componentDidUpdate s true)

/-- A concrete registered menu with items 10, 20, 30, containment of all
ids below 100, and the menu role. -/
def menuABC : Menu :=
  { items := [10, 20, 30], containsElem := fun x => x < 100, hasRoleMenuAttr := true }

/-- A concrete open controller: menuABC registered, toggle element 9,
show true, every element focusable. -/
def mStd : DropdownModel :=
  { menu := some menuABC
    toggle := some 9
    showFlag := true
    focusInDropdown := false
    hasFocusMethod := fun _ => true }

/-- mStd with the show prop false. -/
def mClosed : DropdownModel :=
  { mStd with showFlag := false }

/-- A controller whose menu was never registered. -/
def mNoMenu : DropdownModel :=
  { mStd with menu := none, showFlag := false }

/-- menuABC without the menu role marker. -/
def menuPlain : Menu :=
  { menuABC with hasRoleMenuAttr := false }

/-- mStd with a menu lacking the role marker. -/
def mNoRole : DropdownModel :=
  { mStd with menu := some menuPlain }

theorem itemAt_length (l : List Nat) : itemAt l l.length = none := by
  induction l with
  | nil => rfl
  | cons a rest ih => simpa [itemAt] using ih

theorem itemAt_none_of_le (l : List Nat) (n : Nat) (h : l.length ≤ n) :
    itemAt l n = none := by
  induction l generalizing n with
  | nil => rfl
  | cons a rest ih =>
    cases n with
    | zero => simp at h
    | succ k => exact ih k (by simpa using h)

theorem itemAt_lt (l : List Nat) (n : Nat) (h : n < l.length) :
    ∃ x, itemAt l n = some x := by
  induction l generalizing n with
  | nil => simp at h
  | cons a rest ih =>
    cases n with
    | zero => exact ⟨a, rfl⟩
    | succ k => exact ih k (by simpa using h)

theorem idxOf?_none_of_not_mem (l : List Nat) (x : Nat) (h : x ∉ l) :
    idxOf? l x = none := by
  induction l with
  | nil => rfl
  | cons a rest ih =>
    rw [List.mem_cons, not_or] at h
    obtain ⟨h1, h2⟩ := h
    have hax : ¬ a = x := fun he => h1 he.symm
    simp [idxOf?, hax, ih h2]

theorem idxOf?_lt_length (l : List Nat) (x i : Nat) (h : idxOf? l x = some i) :
    i < l.length := by
  induction l generalizing i with
  | nil => simp [idxOf?] at h
  | cons a rest ih =>
    by_cases hax : a = x
    · simp [idxOf?, hax] at h
      simp only [List.length_cons]
      omega
    · simp [idxOf?, hax, Option.map_eq_some'] at h
      obtain ⟨j, hj, rfl⟩ := h
      have := ih j hj
      simp only [List.length_cons]
      omega

/-- C3: for every drop string and alignRight flag the placement computed
by getDerivedStateFromProps equals the table the spec states: up gives
top-start or top-end by alignment, right gives right-start, left gives
left-start, and down or any unrecognized direction gives bottom-start or
bottom-end by alignment; the derivation is a pure function of the
configuration alone. -/
theorem placement_matches_spec_table (drop : String) (alignRight : Bool) :
    getPlacement drop alignRight = specPlacementTable drop alignRight := by
  unfold getPlacement specPlacementTable
  by_cases h1 : drop = "up"
  · subst h1
    simp
  · by_cases h2 : drop = "right"
    · subst h2
      simp
    · by_cases h3 : drop = "left"
      · subst h3
        simp
      · simp [h1, h2, h3]

/-- C5: with a registered menu, the computed index is
indexOf(current) + offset clamped to the closed interval from 0 to the
item count N (upper bound N, not N - 1): from index N - 1 with offset
plus one the clamped index is N and no element results; from index 0
with offset minus one the clamped index is 0, the first item; and a
clamped index strictly below N yields the item at that index. -/
theorem next_item_clamp (st : DropdownModel) (m : Menu) (current : Nat) (offset : Int)
    (hm : st.menu = some m) :
    (0 ≤ clampedIndex m current offset ∧
      clampedIndex m current offset ≤ (m.items.length : Int))
    ∧ (idxOf? m.items current = some (m.items.length - 1) → m.items ≠ [] →
        clampedIndex m current 1 = (m.items.length : Int) ∧
          getNextFocusedChild st current 1 = none)
    ∧ (idxOf? m.items current = some 0 →
        clampedIndex m current (-1) = 0 ∧
          getNextFocusedChild st current (-1) = itemAt m.items 0)
    ∧ (∀ j : Nat, (j : Int) = clampedIndex m current offset → j < m.items.length →
        ∃ x, getNextFocusedChild st current offset = some x) := by
  have hrw : ∀ off : Int, getNextFocusedChild st current off =
      itemAt m.items (clampedIndex m current off).toNat := by
    intro off
    simp [getNextFocusedChild, hm]
  refine ⟨?_, ?_, ?_, ?_⟩
  · constructor
    · exact le_max_left _ _
    · simp only [clampedIndex]
      omega
  · intro h hne
    have hlt := idxOf?_lt_length m.items current _ h
    have hjs : jsIndexOf m.items current = ((m.items.length - 1 : Nat) : Int) := by
      simp [jsIndexOf, h]
    have hc : clampedIndex m current 1 = (m.items.length : Int) := by
      simp only [clampedIndex, hjs]
      omega
    refine ⟨hc, ?_⟩
    rw [hrw 1, hc]
    simpa using itemAt_length m.items
  · intro h
    have hjs : jsIndexOf m.items current = 0 := by
      simp [jsIndexOf, h]
    have hc : clampedIndex m current (-1) = 0 := by
      simp only [clampedIndex, hjs]
      omega
    refine ⟨hc, ?_⟩
    rw [hrw (-1), hc]
    norm_num
  · intro j hj hlt
    obtain ⟨x, hx⟩ := itemAt_lt m.items j hlt
    refine ⟨x, ?_⟩
    rw [hrw offset]
    have hc : (clampedIndex m current offset).toNat = j := by omega
    rw [hc, hx]

/-- Witness for C5 at the concrete menu with items 10, 20, 30: from the
last item 30 an ArrowDown step lands one past the end and yields no
element, and from the first item 10 an ArrowUp step is clamped and
yields the first item. -/
theorem next_item_clamp_witness :
    getNextFocusedChild mStd 30 1 = none ∧
      getNextFocusedChild mStd 10 (-1) = itemAt menuABC.items 0 :=
  ⟨((next_item_clamp mStd menuABC 30 1 rfl).2.1 (by decide) (by decide)).2,
   ((next_item_clamp mStd menuABC 10 (-1) rfl).2.2.1 (by decide)).2⟩

/-- C10: when the current element is not among the matched items the
base index is the indexOf miss value minus one, never zero: with offset
plus one the result is the item at index 0, and with offset minus one
the computed index minus two clamps to 0, also the first item. -/
theorem missing_current_yields_first (st : DropdownModel) (m : Menu)
    (current first : Nat) (rest : List Nat)
    (hm : st.menu = some m) (hi : m.items = first :: rest) (habs : current ∉ m.items) :
    jsIndexOf m.items current = -1
    ∧ getNextFocusedChild st current 1 = some first
    ∧ getNextFocusedChild st current (-1) = some first := by
  have hjs : jsIndexOf m.items current = -1 := by
    simp [jsIndexOf, idxOf?_none_of_not_mem m.items current habs]
  have hlen : 0 ≤ (m.items.length : Int) := by positivity
  refine ⟨hjs, ?_, ?_⟩
  · have hc : clampedIndex m current 1 = 0 := by
      simp only [clampedIndex, hjs]
      omega
    simp [getNextFocusedChild, hm, hc, hi, itemAt]
  · have hc : clampedIndex m current (-1) = 0 := by
      simp only [clampedIndex, hjs]
      omega
    simp [getNextFocusedChild, hm, hc, hi, itemAt]

/-- Witness for C10 at the concrete menu with items 10, 20, 30 and the
unmatched current element 99: both directions yield the first item. -/
theorem missing_current_yields_first_witness :
    jsIndexOf menuABC.items 99 = -1
    ∧ getNextFocusedChild mStd 99 1 = some 10
    ∧ getNextFocusedChild mStd 99 (-1) = some 10 :=
  missing_current_yields_first mStd menuABC 99 10 [20, 30] rfl rfl (by decide)

/-- C1: fails on the code. Pressing Escape or Tab on a non-input target
reaches the case at lines 201 to 204, which calls this.handleClose; no
method of that name is ever defined on the class, so instead of a close
request with source tag keydown the handler throws a TypeError, for
Escape and for Tab alike. -/
theorem escape_tab_close_crashes :
    handleKeyDown mStd { eventId := 1, key := "Escape", targetId := 7, targetTag := "BUTTON" } =
      KeyOutcome.jsError "this.handleClose is not a function"
    ∧ handleKeyDown mStd { eventId := 2, key := "Tab", targetId := 7, targetTag := "BUTTON" } =
      KeyOutcome.jsError "this.handleClose is not a function" := by
  exact ⟨by decide, by decide⟩

/-- C2: fails on the code. A click on the toggle reaches toggleOpen,
which calls this.props.onToggle(show, event) with exactly two arguments:
the negated show flag and the event, no source tag, although the
component documentation of onToggle promises a click source. -/
theorem click_toggle_args :
    handleClick mClosed 11 = { newShow := true, eventId := 11, sourceTag := none } := by
  decide

/-- C8: partly fails on the code. An ArrowDown keydown on a non-input
target while the show prop is false suppresses the default and requests
an open through toggleOpen, but toggleOpen passes no source tag, so the
request carries none rather than keydown. -/
theorem arrowdown_closed_requests_open_no_source :
    handleKeyDown mClosed { eventId := 5, key := "ArrowDown", targetId := 7, targetTag := "BUTTON" } =
      KeyOutcome.ok
        { didPreventDefault := true
          focused := none
          toggleCall := some { newShow := true, eventId := 5, sourceTag := none } } := by
  decide

/-- C4: fails on the code. With no menu registered, a keydown whose
target is text-input-like and whose key is neither a space nor Escape
makes the guard at line 179 read this.menu.contains on null and throw;
likewise the render-time focus snapshot at line 237 reads
this.menu.contains on null during a closing render and throws. -/
theorem keydown_null_menu_throws :
    handleKeyDown mNoMenu { eventId := 3, key := "a", targetId := 7, targetTag := "INPUT" } =
      KeyOutcome.jsError "Cannot read property contains of null"
    ∧ renderFocusSnapshot mNoMenu true 7 =
      Except.error "Cannot read property contains of null" := by
  exact ⟨by decide, by rfl⟩

/-- C4 amended: with no menu registered, next-focus computation returns
no item without error, and handleKeyDown completes without error
whenever the target is not text-input-like and the key is neither
Escape nor Tab; the text-input guard and the render snapshot, however,
dereference the null menu, and Escape and Tab hit the missing close
handler, so the no-throw guarantee is not universal. -/
theorem null_menu_defensive (st : DropdownModel) (ev : KeyEvent)
    (current : Nat) (offset : Int)
    (hm : st.menu = none) (hin : isInputTag ev.targetTag = false)
    (hesc : ev.key ≠ "Escape") (htab : ev.key ≠ "Tab") :
    getNextFocusedChild st current offset = none
    ∧ (handleKeyDown st ev).isOk = true := by
  constructor
  · simp [getNextFocusedChild, hm]
  · unfold handleKeyDown inputGuardFires
    rw [hin]
    simp only [Bool.false_eq_true, if_false]
    unfold keyDispatch
    by_cases h1 : ev.key = "ArrowUp"
    · simp [h1, KeyOutcome.isOk]
    · by_cases h2 : ev.key = "ArrowDown"
      · by_cases h3 : st.showFlag = false
        · simp [h1, h2, h3, KeyOutcome.isOk]
        · simp [h1, h2, h3, KeyOutcome.isOk]
      · simp [h1, h2, hesc, htab, KeyOutcome.isOk]

/-- Witness for C4 amended: with no menu registered an ArrowUp keydown
on a button target completes without error and the next-focus
computation yields no item. -/
theorem null_menu_defensive_witness :
    getNextFocusedChild mNoMenu 7 1 = none
    ∧ (handleKeyDown mNoMenu
        { eventId := 3, key := "ArrowUp", targetId := 7, targetTag := "BUTTON" }).isOk = true :=
  null_menu_defensive mNoMenu
    { eventId := 3, key := "ArrowUp", targetId := 7, targetTag := "BUTTON" }
    7 1 rfl (by decide) (by decide) (by decide)

/-- C6: during an open to closed update cycle with the menu and a
focusable toggle registered, the render snapshot records whether the
active element lies inside the menu, and componentDidUpdate then either
returns focus to the toggle exactly once while clearing the focus flag
(when the snapshot saw focus inside the menu) or moves no focus at all
(when it did not); in both cases the resulting flag is clear and no
menu item receives focus. -/
theorem close_returns_focus_once (st : DropdownModel) (m : Menu) (t active : Nat)
    (hm : st.menu = some m) (hs : st.showFlag = false) (ht : st.toggle = some t)
    (hf : st.hasFocusMethod t = true) :
    closeTransition st active =
      Except.ok ({ st with focusInDropdown := false },
        { positionUpdated := false
          toggleFocusCalls := if m.containsElem active then 1 else 0
          firstItemFocused := none }) := by
  unfold closeTransition renderFocusSnapshot
  rw [hm, hs]
  simp only [Bool.not_false, Bool.and_true, if_true, Except.map]
  unfold componentDidUpdate focusToggleCalls
  rw [ht]
  by_cases hc : m.containsElem active
  · simp [hs, hc, hf]
  · simp [hs, hc]

/-- Witness for C6: closing the concrete controller while the active
element 20 is inside the menu yields exactly one focus call on the
toggle and a cleared focus flag. -/
theorem close_returns_focus_once_witness :
    closeTransition mClosed 20 =
      Except.ok ({ mClosed with focusInDropdown := false },
        { positionUpdated := false
          toggleFocusCalls := if menuABC.containsElem 20 then 1 else 0
          firstItemFocused := none }) :=
  close_returns_focus_once mClosed menuABC 9 20 rfl rfl rfl rfl

/-- C7: during a closed to open update cycle, when the registered menu
carries the role marker, has a first item and that item exposes focus,
componentDidUpdate focuses exactly that first item and never the
toggle; when the menu lacks the role marker, the open transition moves
no focus at all. -/
theorem open_focuses_first_with_role (st : DropdownModel) (m : Menu)
    (first : Nat) (rest : List Nat) (hs : st.showFlag = true) :
    (st.menu = some m → m.hasRoleMenuAttr = true → m.items = first :: rest →
      st.hasFocusMethod first = true →
      (componentDidUpdate st false).2.firstItemFocused = some first)
    ∧ (componentDidUpdate st false).2.toggleFocusCalls = 0
    ∧ (hasMenuRole st = false →
      (componentDidUpdate st false).2.firstItemFocused = none) := by
  have hopen : componentDidUpdate st false =
      (st, { positionUpdated := updatePositionRuns st
             toggleFocusCalls := 0
             firstItemFocused := maybeFocusFirst st }) := by
    unfold componentDidUpdate
    rw [hs]
    simp
  refine ⟨?_, ?_, ?_⟩
  · intro hm hrole hitems hfoc
    rw [hopen]
    simp only [maybeFocusFirst, hasMenuRole, hm, hrole, if_true, hitems, itemAt, hfoc]
  · rw [hopen]
  · intro hrole
    rw [hopen]
    simp only [maybeFocusFirst, hrole, Bool.false_eq_true, if_false]

/-- Witness for C7: opening the concrete controller whose menu carries
the role marker focuses the first item 10; opening the one whose menu
lacks the marker focuses nothing. -/
theorem open_focuses_first_with_role_witness :
    (componentDidUpdate mStd false).2.firstItemFocused = some 10
    ∧ (componentDidUpdate mNoRole false).2.firstItemFocused = none :=
  ⟨(open_focuses_first_with_role mStd menuABC 10 [20, 30] rfl).1 rfl rfl rfl rfl,
   (open_focuses_first_with_role mNoRole menuPlain 0 [] rfl).2.2 rfl⟩

/-- C9: with a registered menu, a keydown whose target tag is
text-input-like is swallowed by the guard, producing no preventDefault,
no focus movement and no toggle request, exactly when the key is a
space, or the key is not Escape and the target lies inside the menu
subtree; in every other case the handler proceeds to the key switch. -/
theorem input_guard_exact (st : DropdownModel) (m : Menu) (ev : KeyEvent)
    (hm : st.menu = some m) (hin : isInputTag ev.targetTag = true) :
    handleKeyDown st ev =
      if ev.key = " " ∨ (ev.key ≠ "Escape" ∧ m.containsElem ev.targetId = true) then
        KeyOutcome.ok noEffects
      else keyDispatch st ev := by
  unfold handleKeyDown inputGuardFires
  rw [hin, hm]
  by_cases hsp : ev.key = " "
  · simp [hsp]
  · by_cases hesc : ev.key = "Escape"
    · simp [hsp, hesc]
    · by_cases hc : m.containsElem ev.targetId
      · simp [hsp, hesc, hc]
      · simp [hsp, hesc, hc]

/-- Witness for C9: on the concrete open controller a keydown with key x
targeting the input element 7, which lies inside the menu, is swallowed
with no effect. -/
theorem input_guard_exact_witness :
    handleKeyDown mStd { eventId := 4, key := "x", targetId := 7, targetTag := "INPUT" } =
      KeyOutcome.ok noEffects :=
  (input_guard_exact mStd menuABC
      { eventId := 4, key := "x", targetId := 7, targetTag := "INPUT" }
      rfl (by decide)).trans (if_pos (by decide))
